import Mathlib

/-!
Verification of the session/credential lifecycle manager and instance
resolver of the fleeting-plugin-proxmox repository
(cmd/fleeting-plugin-proxmox/plugin/proxmox_session.go), as a shallow
embedding in Lean 4.

External effects (the filesystem, the Proxmox HTTP API, the logger) are
modelled as explicit inputs and output traces: each Go function becomes a
Lean function from its inputs and the responses of the outside world to
its result together with the observable events it produced.
-/

namespace ProxmoxPlugin

/-- Go errors: either a base error value or a `fmt.Errorf("...: %w", err)`
wrapping of an inner error with a context message. -/
inductive GoError where
  | base (msg : String)
  | wrapped (msg : String) (inner : GoError)
deriving Repr, DecidableEq

/-- `var ErrNotFound = errors.New("not found")`. -/
def ErrNotFound : GoError := .base "not found"

/-- The `Credentials` struct read from the credentials file
(proxmox_session.go lines 74-82). `Password` holds the password or the
token secret; `TokenID` selects token mode when non-empty. -/
structure Credentials where
  Username : String
  Password : String
  TokenID : String
  OtpSecret : String
  Path : String
  Privs : String
  Realm : String
deriving Repr, DecidableEq

/-- The zero value `Credentials{}`. -/
def Credentials.zero : Credentials := ⟨"", "", "", "", "", "", ""⟩

/-- The `proxmox.Credentials` struct of the go-proxmox library, used both
for password login and for the session-refresh call. -/
structure ProxmoxCredentials where
  Username : String := ""
  Password : String := ""
  Otp : String := ""
  Path : String := ""
  Privs : String := ""
  Realm : String := ""
deriving Repr, DecidableEq

/-- A pool membership entry (`pool.Members` element): its resource type
tag, its VMID (a Go `uint64`, modelled as `Nat`), and the owning node. -/
structure PoolMember where
  «Type» : String
  VMID : Nat
  Node : String
deriving Repr, DecidableEq

/-- A pool as returned by `ig.proxmox.Pool`. -/
structure Pool where
  Members : List PoolMember
deriving Repr, DecidableEq

/-- A `proxmox.VirtualMachine` handle, kept abstract: the node it was
fetched from and its id. -/
structure VirtualMachine where
  node : String
  vmid : Int
deriving Repr, DecidableEq

/-- The responses of the Proxmox API for one resolution call:
`poolResult` models `ig.proxmox.Pool(ctx, ig.Settings.Pool)`,
`nodeResult name` models `ig.proxmox.Node(ctx, name)` (the node object is
abstracted to `Unit`), and `vmResult name vmid` models
`node.VirtualMachine(ctx, vmid)`. -/
structure ProxmoxAPI where
  poolResult : Except GoError Pool
  nodeResult : String → Except GoError Unit
  vmResult : String → Int → Except GoError VirtualMachine

/-- Go `uint64(vmid)` conversion of a Go `int`: reduction modulo 2^64. -/
def uint64OfInt (i : Int) : Nat := (i % 2 ^ 64).toNat

/-- `getProxmoxPool` (proxmox_session.go lines 84-91): fetch the pool,
wrapping a failure with the pool id. -/
def getProxmoxPool (api : ProxmoxAPI) (poolName : String) : Except GoError Pool :=
  match api.poolResult with
  | .error e => .error (.wrapped ("failed to get pool id=\x27" ++ poolName ++ "\x27") e)
  | .ok pool => .ok pool

/-- `getProxmoxVMOnNode` (proxmox_session.go lines 113-125): fetch the
node, then the VM on that node, wrapping each failure with context. -/
def getProxmoxVMOnNode (api : ProxmoxAPI) (vmid : Int) (nodeName : String) :
    Except GoError VirtualMachine :=
  match api.nodeResult nodeName with
  | .error e => .error (.wrapped ("failed to get node=\x27" ++ nodeName ++ "\x27") e)
  | .ok _ =>
    match api.vmResult nodeName vmid with
    | .error e =>
        .error (.wrapped ("failed to get vm=\x27" ++ toString vmid ++ "\x27 on node=\x27"
          ++ nodeName ++ "\x27") e)
    | .ok vm => .ok vm

/-- The `for _, member := range pool.Members` loop body of `getProxmoxVM`
(proxmox_session.go lines 100-108): skip members whose type is not
"qemu"; on the first "qemu" member with `member.VMID == uint64(vmid)`
return `getProxmoxVMOnNode(ctx, vmid, member.Node)`; after the loop
return `ErrNotFound`. -/
def scanMembers (api : ProxmoxAPI) (vmid : Int) :
    List PoolMember → Except GoError VirtualMachine
  | [] => .error ErrNotFound
  | member :: rest =>
    if member.«Type» ≠ "qemu" then scanMembers api vmid rest
    else if member.VMID = uint64OfInt vmid then getProxmoxVMOnNode api vmid member.Node
    else scanMembers api vmid rest

/-- `getProxmoxVM` (proxmox_session.go lines 94-111). -/
def getProxmoxVM (api : ProxmoxAPI) (poolName : String) (vmid : Int) :
    Except GoError VirtualMachine :=
  match getProxmoxPool api poolName with
  | .error e => .error e
  | .ok pool => scanMembers api vmid pool.Members

/-! ### Cluster client factory -/

/-- `fmt.Sprintf` restricted to the verbs this code uses: each `%s` in
the format string consumes the next argument. -/
def sprintfChars : List Char → List String → List Char
  | [], _ => []
  | '%' :: 's' :: rest, a :: args => a.data ++ sprintfChars rest args
  | c :: rest, args => c :: sprintfChars rest args

/-- `fmt.Sprintf` on `%s` format strings. -/
def sprintf (fmtStr : String) (args : List String) : String :=
  ⟨sprintfChars fmtStr.data args⟩

/-- The authentication option passed to `proxmox.NewClient`: either
`proxmox.WithCredentials` (password login) or `proxmox.WithAPIToken`. -/
inductive ClientAuth where
  | withCredentials (c : ProxmoxCredentials)
  | withAPIToken (apiToken secret : String)
deriving Repr, DecidableEq

/-- The client built by `proxmox.NewClient`: the joined API base URL, the
authentication option, and the TLS-verification bypass flag of its HTTP
transport. -/
structure Client where
  baseURL : String
  auth : ClientAuth
  insecureSkipTLSVerify : Bool
deriving Repr, DecidableEq

/-- The group settings consumed by this core (`ig.Settings`). -/
structure GroupSettings where
  URL : String
  Pool : String
  CredentialsFilePath : String
  InsecureSkipTLSVerify : Bool
deriving Repr, DecidableEq

/-- The outside world of `getProxmoxClient`: `urlParse` models
`url.Parse(ig.Settings.URL)`, yielding on success the string
`url.JoinPath("/api2/json").String()`; `credRead` models the result of
`ig.getProxmoxCredentials()`. -/
structure ClientEnv where
  urlParse : Except GoError String
  credRead : Except GoError Credentials

/-- `getProxmoxClient` (proxmox_session.go lines 127-173): parse the URL
(wrapping a parse failure with the URL), read the credentials
(propagating a failure unchanged), then branch on `credentials.TokenID`:
empty selects a password login copying Username/Password/Path/Privs/Realm
into `proxmox.Credentials`; non-empty selects an API token
`fmt.Sprintf("%s@%s!%s", Username, Realm, TokenID)` with `Password` as
the secret. -/
def getProxmoxClient (env : ClientEnv) (settings : GroupSettings) :
    Except GoError Client :=
  match env.urlParse with
  | .error e => .error (.wrapped ("failed to parse URL=\x27" ++ settings.URL ++ "\x27") e)
  | .ok joinedURL =>
    match env.credRead with
    | .error e => .error e
    | .ok credentials =>
      if credentials.TokenID = "" then
        .ok { baseURL := joinedURL
              auth := .withCredentials
                { Username := credentials.Username
                  Password := credentials.Password
                  Path := credentials.Path
                  Privs := credentials.Privs
                  Realm := credentials.Realm }
              insecureSkipTLSVerify := settings.InsecureSkipTLSVerify }
      else
        .ok { baseURL := joinedURL
              auth := .withAPIToken
                (sprintf "%s@%s!%s" [credentials.Username, credentials.Realm, credentials.TokenID])
                credentials.Password
              insecureSkipTLSVerify := settings.InsecureSkipTLSVerify }

/-! ### Credential store reader -/

/-- A JSON value, the input of `encoding/json` decoding. -/
inductive Json where
  | null
  | bool (b : Bool)
  | num (n : Int)
  | str (s : String)
  | arr (elems : List Json)
  | obj (fields : List (String × Json))

/-- Decoding a JSON value into one string field of the `Credentials`
struct, as `encoding/json` does: a JSON string stores the string, JSON
`null` leaves the field unchanged, any other value is a type error. -/
def setStringField (c : Credentials) (upd : Credentials → String → Credentials) :
    Json → Except GoError Credentials
  | .str s => .ok (upd c s)
  | .null => .ok c
  | _ => .error (.base "json: cannot unmarshal value into Go struct field of type string")

/-- Applying one JSON object key to the `Credentials` struct under its
field tags (`username`, `password`, `token`, `otpsecret`, `path`,
`privs`, `realm`); unknown keys are ignored. -/
def applyCredField (c : Credentials) (key : String) (v : Json) :
    Except GoError Credentials :=
  if key = "username" then setStringField c (fun c s => { c with Username := s }) v
  else if key = "password" then setStringField c (fun c s => { c with Password := s }) v
  else if key = "token" then setStringField c (fun c s => { c with TokenID := s }) v
  else if key = "otpsecret" then setStringField c (fun c s => { c with OtpSecret := s }) v
  else if key = "path" then setStringField c (fun c s => { c with Path := s }) v
  else if key = "privs" then setStringField c (fun c s => { c with Privs := s }) v
  else if key = "realm" then setStringField c (fun c s => { c with Realm := s }) v
  else .ok c

/-- Decoding the fields of a JSON object into `Credentials` in order,
stopping at the first type error; a later duplicate key overwrites an
earlier one, as in the streaming decoder. -/
def decodeFields : Credentials → List (String × Json) → Except GoError Credentials
  | c, [] => .ok c
  | c, (k, v) :: rest =>
    match applyCredField c k v with
    | .error e => .error e
    | .ok c1 => decodeFields c1 rest

/-- `json.Decoder.Decode(&credentials)` on a parsed JSON value: an object
is decoded field by field, `null` leaves the zero struct, any other
top-level value is a type error. -/
def decodeCredentials : Json → Except GoError Credentials
  | .obj kvs => decodeFields Credentials.zero kvs
  | .null => .ok Credentials.zero
  | _ => .error (.base "json: cannot unmarshal value into Go value of type plugin.Credentials")

/-- Whether a JSON value decodes into a Go string field without a type
error: a string or `null` does, anything else does not. -/
def isStrOrNull : Json → Bool
  | .str _ => true
  | .null => true
  | _ => false

/-- The content found behind a successfully opened credentials file:
either syntactically malformed (not a JSON value; includes the empty
file) or a parsed JSON value. -/
inductive FileContent where
  | malformed
  | value (j : Json)

/-- The full decode step of `getProxmoxCredentials`: a syntax error from
the decoder, or `decodeCredentials` on the parsed value. -/
def decodeFile : FileContent → Except GoError Credentials
  | .malformed => .error (.base "invalid character or unexpected EOF")
  | .value j => decodeCredentials j

/-- `getProxmoxCredentials` (proxmox_session.go lines 175-188).
`openResult` models `os.Open(ig.Settings.CredentialsFilePath)`. The
result carries, besides the returned value, the number of file handles
opened and the number closed (the `defer credentialsFile.Close()`),
so that handle release is observable on every exit path. -/
def getProxmoxCredentials (path : String) (openResult : Except GoError FileContent) :
    Except GoError Credentials × Nat × Nat :=
  match openResult with
  | .error e =>
      (.error (.wrapped ("failed to open credentials file from path=\x27" ++ path ++ "\x27") e),
       0, 0)
  | .ok content =>
    match decodeFile content with
    | .error e =>
        (.error (.wrapped ("failed to decode credentials file from path=\x27" ++ path ++ "\x27") e),
         1, 1)
    | .ok credentials => (.ok credentials, 1, 1)

/-! ### Session ticket refresher

The refresher loop (proxmox_session.go lines 25-56) is embedded over an
explicit trace of `select` resolutions: each loop iteration either
receives from the shutdown trigger or sees the interval timer fire, the
latter carrying the outside world's responses for that refresh cycle.
The embedding returns the log events and API calls produced, and whether
the loop has returned by the end of the trace. -/

/-- One leveled log message: `ig.log.Error(msg, "err", err)` or
`ig.log.Info(msg)`. -/
inductive LogEvent where
  | errorLog (msg : String) (err : GoError)
  | infoLog (msg : String)
deriving Repr, DecidableEq

/-- One call issued against the cluster client by the refresher:
`ig.proxmox.Ticket(ctx, creds)` with the given credentials argument. -/
inductive ApiCall where
  | ticket (creds : ProxmoxCredentials)
deriving Repr, DecidableEq

/-- The outside world's responses for one refresh cycle: the result of
`ig.getProxmoxCredentials()` and, if reached, the result of the
`ig.proxmox.Ticket` call. -/
structure CycleEnv where
  credResult : Except GoError Credentials
  ticketResult : Except GoError Unit

/-- One refresh cycle: the closure body at proxmox_session.go lines
31-53. On a credentials-read failure it logs an error and returns
without calling the API. Otherwise it builds a `proxmox.Credentials`
carrying only the username (the lines assigning `Realm` and the old
ticket to `Password` are commented out in the source), issues the
`Ticket` call, logs an error if that call failed, and then logs
"refreshed proxmox session" (the source has no early return after the
error log, so this line runs unconditionally). -/
def refreshCycle (env : CycleEnv) : List LogEvent × List ApiCall :=
  match env.credResult with
  | .error e =>
      ([.errorLog "failed to refresh proxmox session, could not read credentials" e], [])
  | .ok credentials =>
    let proxmoxCredentials : ProxmoxCredentials := { Username := credentials.Username }
    match env.ticketResult with
    | .error e =>
        ([.errorLog "failed to refresh proxmox session" e, .infoLog "refreshed proxmox session"],
         [.ticket proxmoxCredentials])
    | .ok _ =>
        ([.infoLog "refreshed proxmox session"], [.ticket proxmoxCredentials])

/-- The resolution of one `select` iteration of the loop: the shutdown
trigger fired, or the interval timer elapsed with the given cycle
environment. -/
inductive SelectOutcome where
  | shutdown
  | interval (env : CycleEnv)

/-- `runSessionTicketRefresher` over a trace of select resolutions:
returns the log events, the API calls, and `true` when the loop has
returned (which the source does only in the shutdown case); `false`
means the trace ended with the loop still waiting. -/
def runSessionTicketRefresher :
    List SelectOutcome → List LogEvent × List ApiCall × Bool
  | [] => ([], [], false)
  | .shutdown :: _ => ([], [], true)
  | .interval env :: rest =>
    let cycle := refreshCycle env
    let tail := runSessionTicketRefresher rest
    (cycle.1 ++ tail.1, cycle.2 ++ tail.2.1, tail.2.2)

/-- `startSessionTicketRefresher` (proxmox_session.go lines 15-22):
`wg.Add(1)`, then the goroutine runs `runSessionTicketRefresher` and
`defer wg.Done()` fires when it returns. Given the wait-group counter
before the call and the goroutine's select trace, this yields the
counter after the modelled execution together with the run's outcome:
`Done` is signalled exactly when the run has returned. -/
def startSessionTicketRefresher (wgCounter : Int) (trace : List SelectOutcome) :
    Int × (List LogEvent × List ApiCall × Bool) :=
  let run := runSessionTicketRefresher trace
  (if run.2.2 then wgCounter + 1 - 1 else wgCounter + 1, run)

/-! ### Sample data for concrete evaluations

The membership scenario of the spec: three pool members, one of type
"qemu" with id 105 on node "pve2". -/

/-- A concrete Proxmox API environment where every node and VM lookup
succeeds. -/
def sampleAPI : ProxmoxAPI where
  poolResult := .ok ⟨[⟨"lxc", 101, "pve1"⟩, ⟨"qemu", 105, "pve2"⟩, ⟨"qemu", 200, "pve3"⟩]⟩
  nodeResult := fun _ => .ok ()
  vmResult := fun n v => .ok ⟨n, v⟩

/-- A concrete credentials record in password mode. -/
def sampleCreds : Credentials := ⟨"root", "secret", "", "", "", "", "pam"⟩

/-! ## Theorems -/

theorem scanMembers_no_match (api : ProxmoxAPI) (vmid : Int) (ms : List PoolMember)
    (h : ∀ m ∈ ms, ¬(m.«Type» = "qemu" ∧ m.VMID = uint64OfInt vmid)) :
    scanMembers api vmid ms = .error ErrNotFound := by
  induction ms with
  | nil => rfl
  | cons m rest ih =>
    have hm := h m (List.mem_cons_self m rest)
    have hrest := fun m1 hm1 => h m1 (List.mem_cons_of_mem m hm1)
    by_cases hty : m.«Type» = "qemu"
    · have hid : ¬m.VMID = uint64OfInt vmid := fun hid => hm ⟨hty, hid⟩
      simp [scanMembers, hty, hid, ih hrest]
    · simp [scanMembers, hty, ih hrest]

theorem scanMembers_first_match (api : ProxmoxAPI) (vmid : Int)
    (pre : List PoolMember) (m : PoolMember) (post : List PoolMember)
    (hpre : ∀ m1 ∈ pre, ¬(m1.«Type» = "qemu" ∧ m1.VMID = uint64OfInt vmid))
    (hty : m.«Type» = "qemu") (hid : m.VMID = uint64OfInt vmid) :
    scanMembers api vmid (pre ++ m :: post) = getProxmoxVMOnNode api vmid m.Node := by
  induction pre with
  | nil => simp [scanMembers, hty, hid]
  | cons m1 rest ih =>
    have hm1 := hpre m1 (List.mem_cons_self m1 rest)
    have hrest := fun m2 hm2 => hpre m2 (List.mem_cons_of_mem m1 hm2)
    by_cases hty1 : m1.«Type» = "qemu"
    · have hid1 : ¬m1.VMID = uint64OfInt vmid := fun hid1 => hm1 ⟨hty1, hid1⟩
      simp [scanMembers, hty1, hid1, ih hrest]
    · simp [scanMembers, hty1, ih hrest]

/-- C1: `getProxmoxVM` fetches the pool and scans the members in API
order; the first member of type "qemu" whose VMID equals the requested
id (under the code's `uint64(vmid)` conversion) yields
`getProxmoxVMOnNode(vmid, member.Node)`; members of other types with a
matching id are skipped, and if no "qemu" member matches in the full
list the result is `ErrNotFound`. -/
theorem getProxmoxVM_scan_correct
    (api : ProxmoxAPI) (poolName : String) (vmid : Int) (pool : Pool)
    (hpool : api.poolResult = .ok pool) :
    (∀ pre m post,
      pool.Members = pre ++ m :: post →
      (∀ m1 ∈ pre, ¬(m1.«Type» = "qemu" ∧ m1.VMID = uint64OfInt vmid)) →
      m.«Type» = "qemu" → m.VMID = uint64OfInt vmid →
      getProxmoxVM api poolName vmid = getProxmoxVMOnNode api vmid m.Node) ∧
    ((∀ m ∈ pool.Members, ¬(m.«Type» = "qemu" ∧ m.VMID = uint64OfInt vmid)) →
      getProxmoxVM api poolName vmid = .error ErrNotFound) := by
  constructor
  · intro pre m post hsplit hpre hty hid
    simp [getProxmoxVM, getProxmoxPool, hpool, hsplit,
      scanMembers_first_match api vmid pre m post hpre hty hid]
  · intro hnone
    simp [getProxmoxVM, getProxmoxPool, hpool, scanMembers_no_match api vmid pool.Members hnone]

/-- Witness for C1 on the spec's scenario: id 105 resolves on node
"pve2"; id 999 is not found. -/
theorem getProxmoxVM_scan_correct_witness :
    getProxmoxVM sampleAPI "pool1" 105 = getProxmoxVMOnNode sampleAPI 105 "pve2" ∧
    getProxmoxVM sampleAPI "pool1" 999 = .error ErrNotFound := by
  constructor
  · exact (getProxmoxVM_scan_correct sampleAPI "pool1" 105 _ rfl).1
      [⟨"lxc", 101, "pve1"⟩] ⟨"qemu", 105, "pve2"⟩ [⟨"qemu", 200, "pve3"⟩]
      rfl (by decide) rfl (by decide)
  · exact (getProxmoxVM_scan_correct sampleAPI "pool1" 999 _ rfl).2 (by decide)

/-- C10: `getProxmoxVM` takes a signed id and compares it to the
unsigned member VMID through `uint64(vmid)`, wrapping modulo 2^64: a
negative id matches a member exactly when that member's VMID is
2^64 + vmid, so on a membership list of realistic VMIDs (below 2^63) a
negative id yields `ErrNotFound` rather than a match or an
invalid-argument error. -/
theorem getProxmoxVM_negative_vmid
    (api : ProxmoxAPI) (poolName : String) (vmid : Int) (pool : Pool)
    (hpool : api.poolResult = .ok pool)
    (hlo : -(2 ^ 63) ≤ vmid) (hneg : vmid < 0) :
    (∀ m : PoolMember, m.VMID = uint64OfInt vmid ↔ (m.VMID : Int) = 2 ^ 64 + vmid) ∧
    ((∀ m ∈ pool.Members, m.VMID < 2 ^ 63) →
      getProxmoxVM api poolName vmid = .error ErrNotFound) := by
  have hconv : uint64OfInt vmid = (2 ^ 64 + vmid).toNat := by
    unfold uint64OfInt
    omega
  constructor
  · intro m
    rw [hconv]
    omega
  · intro hsmall
    refine (getProxmoxVM_scan_correct api poolName vmid pool hpool).2 ?_
    intro m hm hmatch
    have h1 := hsmall m hm
    have h2 := hmatch.2
    rw [hconv] at h2
    omega

/-- Witness for C10: id -1 would only match VMID 2^64 - 1, and on the
sample pool it is not found. -/
theorem getProxmoxVM_negative_vmid_witness :
    ((⟨"qemu", 5, "pve1"⟩ : PoolMember).VMID = uint64OfInt (-1) ↔
      (((⟨"qemu", 5, "pve1"⟩ : PoolMember).VMID : Int) = 2 ^ 64 + (-1))) ∧
    getProxmoxVM sampleAPI "pool1" (-1) = .error ErrNotFound := by
  have h := getProxmoxVM_negative_vmid sampleAPI "pool1" (-1) _ rfl (by decide) (by decide)
  exact ⟨h.1 _, h.2 (by decide)⟩

theorem sprintf_token_format (u r t : String) :
    sprintf "%s@%s!%s" [u, r, t] = u ++ "@" ++ r ++ "!" ++ t := by
  rcases u with ⟨ud⟩
  rcases r with ⟨rd⟩
  rcases t with ⟨td⟩
  apply String.ext
  show sprintfChars "%s@%s!%s".data [⟨ud⟩, ⟨rd⟩, ⟨td⟩] = _
  simp [sprintfChars, String.data_append]

/-- C2: with a non-empty token identifier, `getProxmoxClient` builds a
token-mode client whose API token string is exactly
`Username ++ "@" ++ Realm ++ "!" ++ TokenID` with the record's
`Password` as the secret, and never a password-login credential. -/
theorem getProxmoxClient_token_mode
    (env : ClientEnv) (settings : GroupSettings) (joinedURL : String)
    (credentials : Credentials)
    (hurl : env.urlParse = .ok joinedURL)
    (hcred : env.credRead = .ok credentials)
    (htok : credentials.TokenID ≠ "") :
    ∃ client, getProxmoxClient env settings = .ok client ∧
      client.auth = .withAPIToken
        (credentials.Username ++ "@" ++ credentials.Realm ++ "!" ++ credentials.TokenID)
        credentials.Password ∧
      ∀ pc, client.auth ≠ .withCredentials pc := by
  refine ⟨{ baseURL := joinedURL
            auth := .withAPIToken
              (sprintf "%s@%s!%s"
                [credentials.Username, credentials.Realm, credentials.TokenID])
              credentials.Password
            insecureSkipTLSVerify := settings.InsecureSkipTLSVerify }, ?_, ?_, ?_⟩
  · simp [getProxmoxClient, hurl, hcred, htok]
  · simp [sprintf_token_format]
  · intro pc
    simp

/-- Witness for C2 on a concrete token-mode record. -/
theorem getProxmoxClient_token_mode_witness :
    ∃ client,
      getProxmoxClient
        ⟨.ok "https://pve.example:8006/api2/json",
         .ok ⟨"runner", "tokensecret", "mytoken", "", "", "", "pve"⟩⟩
        ⟨"https://pve.example:8006", "pool1", "/etc/creds.json", false⟩ = .ok client ∧
      client.auth = .withAPIToken ("runner" ++ "@" ++ "pve" ++ "!" ++ "mytoken") "tokensecret" ∧
      ∀ pc, client.auth ≠ .withCredentials pc :=
  getProxmoxClient_token_mode _ _ "https://pve.example:8006/api2/json"
    ⟨"runner", "tokensecret", "mytoken", "", "", "", "pve"⟩ rfl rfl (by decide)

/-- C3: with an empty token identifier, `getProxmoxClient` builds a
password-mode client whose login credentials copy exactly the record's
username, password, path, privs and realm fields, and never an API-token
credential. -/
theorem getProxmoxClient_password_mode
    (env : ClientEnv) (settings : GroupSettings) (joinedURL : String)
    (credentials : Credentials)
    (hurl : env.urlParse = .ok joinedURL)
    (hcred : env.credRead = .ok credentials)
    (htok : credentials.TokenID = "") :
    ∃ client, getProxmoxClient env settings = .ok client ∧
      client.auth = .withCredentials
        { Username := credentials.Username
          Password := credentials.Password
          Path := credentials.Path
          Privs := credentials.Privs
          Realm := credentials.Realm } ∧
      ∀ a s, client.auth ≠ .withAPIToken a s := by
  refine ⟨{ baseURL := joinedURL
            auth := .withCredentials
              { Username := credentials.Username
                Password := credentials.Password
                Path := credentials.Path
                Privs := credentials.Privs
                Realm := credentials.Realm }
            insecureSkipTLSVerify := settings.InsecureSkipTLSVerify }, ?_, ?_, ?_⟩
  · simp [getProxmoxClient, hurl, hcred, htok]
  · rfl
  · intro a s
    simp

/-- Witness for C3 on a concrete password-mode record. -/
theorem getProxmoxClient_password_mode_witness :
    ∃ client,
      getProxmoxClient
        ⟨.ok "https://pve.example:8006/api2/json", .ok sampleCreds⟩
        ⟨"https://pve.example:8006", "pool1", "/etc/creds.json", false⟩ = .ok client ∧
      client.auth = .withCredentials
        { Username := sampleCreds.Username
          Password := sampleCreds.Password
          Path := sampleCreds.Path
          Privs := sampleCreds.Privs
          Realm := sampleCreds.Realm } ∧
      ∀ a s, client.auth ≠ .withAPIToken a s :=
  getProxmoxClient_password_mode _ _ "https://pve.example:8006/api2/json"
    sampleCreds rfl rfl rfl

/-- C4: `getProxmoxCredentials` fails exactly when the file cannot be
opened or its content does not decode as the `Credentials` shape; the
open-failure error message contains the configured path and wraps the
underlying I/O error, the decode-failure message contains the path and
wraps the decode error, and on every exit path the number of file
handles closed equals the number opened. -/
theorem getProxmoxCredentials_error_contract (path : String)
    (openResult : Except GoError FileContent) :
    (getProxmoxCredentials path openResult).2.1 = (getProxmoxCredentials path openResult).2.2 ∧
    ((∃ e, (getProxmoxCredentials path openResult).1 = .error e) ↔
      ((∃ e, openResult = .error e) ∨
       (∃ content e, openResult = .ok content ∧ decodeFile content = .error e))) ∧
    (∀ e, openResult = .error e →
      ∃ pre post,
        (getProxmoxCredentials path openResult).1 = .error (.wrapped (pre ++ path ++ post) e)) ∧
    (∀ content e, openResult = .ok content → decodeFile content = .error e →
      ∃ pre post,
        (getProxmoxCredentials path openResult).1 = .error (.wrapped (pre ++ path ++ post) e)) := by
  refine ⟨?_, ?_, ?_, ?_⟩
  · cases openResult with
    | error e => rfl
    | ok content =>
      cases hdec : decodeFile content with
      | error e => simp [getProxmoxCredentials, hdec]
      | ok c => simp [getProxmoxCredentials, hdec]
  · constructor
    · intro ⟨e, he⟩
      cases openResult with
      | error e1 => exact .inl ⟨e1, rfl⟩
      | ok content =>
        cases hdec : decodeFile content with
        | error e1 => exact .inr ⟨content, e1, rfl, hdec⟩
        | ok c => simp [getProxmoxCredentials, hdec] at he
    · intro h
      rcases h with ⟨e, he⟩ | ⟨content, e, hc, hdec⟩
      · exact ⟨.wrapped ("failed to open credentials file from path=\x27" ++ path ++ "\x27") e,
          by simp [getProxmoxCredentials, he]⟩
      · exact ⟨.wrapped ("failed to decode credentials file from path=\x27" ++ path ++ "\x27") e,
          by simp [getProxmoxCredentials, hc, hdec]⟩
  · intro e he
    exact ⟨"failed to open credentials file from path=\x27", "\x27",
      by simp [getProxmoxCredentials, he]⟩
  · intro content e hc hdec
    exact ⟨"failed to decode credentials file from path=\x27", "\x27",
      by simp [getProxmoxCredentials, hc, hdec]⟩

/-- Witness for C4: the two failure shapes and the success shape at
concrete inputs, derived from the contract. -/
theorem getProxmoxCredentials_error_contract_witness :
    (∃ pre post,
      (getProxmoxCredentials "/etc/creds.json" (.error (.base "permission denied"))).1 =
        .error (.wrapped (pre ++ "/etc/creds.json" ++ post) (.base "permission denied"))) ∧
    ((∃ e, (getProxmoxCredentials "/etc/creds.json" (.ok .malformed)).1 = .error e) ↔
      ((∃ e, (.ok .malformed : Except GoError FileContent) = .error e) ∨
       (∃ content e, (.ok .malformed : Except GoError FileContent) = .ok content ∧
         decodeFile content = .error e))) := by
  refine ⟨?_, ?_⟩
  · exact (getProxmoxCredentials_error_contract "/etc/creds.json"
      (.error (.base "permission denied"))).2.2.1 _ rfl
  · exact (getProxmoxCredentials_error_contract "/etc/creds.json" (.ok .malformed)).2.1

theorem applyCredField_ok (c : Credentials) (k : String) (v : Json)
    (h : isStrOrNull v = true) :
    ∃ c1, applyCredField c k v = .ok c1 ∧
      (k ≠ "username" → c1.Username = c.Username) ∧
      (k ≠ "password" → c1.Password = c.Password) ∧
      (k ≠ "token" → c1.TokenID = c.TokenID) ∧
      (k ≠ "otpsecret" → c1.OtpSecret = c.OtpSecret) ∧
      (k ≠ "path" → c1.Path = c.Path) ∧
      (k ≠ "privs" → c1.Privs = c.Privs) ∧
      (k ≠ "realm" → c1.Realm = c.Realm) := by
  cases v with
  | str s =>
    simp only [applyCredField, setStringField]
    split_ifs <;> refine ⟨_, rfl, ?_, ?_, ?_, ?_, ?_, ?_, ?_⟩ <;> simp_all
  | null =>
    simp only [applyCredField, setStringField]
    split_ifs <;>
      exact ⟨c, rfl, fun _ => rfl, fun _ => rfl, fun _ => rfl, fun _ => rfl,
        fun _ => rfl, fun _ => rfl, fun _ => rfl⟩
  | bool b => simp [isStrOrNull] at h
  | num n => simp [isStrOrNull] at h
  | arr elems => simp [isStrOrNull] at h
  | obj fields => simp [isStrOrNull] at h

theorem decodeFields_ok (kvs : List (String × Json)) :
    ∀ c : Credentials, (∀ p ∈ kvs, isStrOrNull p.2 = true) →
    ∃ c1, decodeFields c kvs = .ok c1 ∧
      ((∀ p ∈ kvs, p.1 ≠ "username") → c1.Username = c.Username) ∧
      ((∀ p ∈ kvs, p.1 ≠ "password") → c1.Password = c.Password) ∧
      ((∀ p ∈ kvs, p.1 ≠ "token") → c1.TokenID = c.TokenID) ∧
      ((∀ p ∈ kvs, p.1 ≠ "otpsecret") → c1.OtpSecret = c.OtpSecret) ∧
      ((∀ p ∈ kvs, p.1 ≠ "path") → c1.Path = c.Path) ∧
      ((∀ p ∈ kvs, p.1 ≠ "privs") → c1.Privs = c.Privs) ∧
      ((∀ p ∈ kvs, p.1 ≠ "realm") → c1.Realm = c.Realm) := by
  induction kvs with
  | nil =>
    intro c _
    exact ⟨c, rfl, fun _ => rfl, fun _ => rfl, fun _ => rfl, fun _ => rfl,
      fun _ => rfl, fun _ => rfl, fun _ => rfl⟩
  | cons kv rest ih =>
    intro c h
    obtain ⟨k, v⟩ := kv
    have hv := h (k, v) (List.mem_cons_self _ _)
    obtain ⟨c1, hc1, hu1, hp1, ht1, ho1, hpa1, hpr1, hr1⟩ := applyCredField_ok c k v hv
    obtain ⟨c2, hc2, hu2, hp2, ht2, ho2, hpa2, hpr2, hr2⟩ :=
      ih c1 (fun p hp => h p (List.mem_cons_of_mem _ hp))
    refine ⟨c2, by simp [decodeFields, hc1, hc2], ?_, ?_, ?_, ?_, ?_, ?_, ?_⟩
    · intro hall
      exact (hu2 fun p hp => hall p (List.mem_cons_of_mem _ hp)).trans
        (hu1 (hall (k, v) (List.mem_cons_self _ _)))
    · intro hall
      exact (hp2 fun p hp => hall p (List.mem_cons_of_mem _ hp)).trans
        (hp1 (hall (k, v) (List.mem_cons_self _ _)))
    · intro hall
      exact (ht2 fun p hp => hall p (List.mem_cons_of_mem _ hp)).trans
        (ht1 (hall (k, v) (List.mem_cons_self _ _)))
    · intro hall
      exact (ho2 fun p hp => hall p (List.mem_cons_of_mem _ hp)).trans
        (ho1 (hall (k, v) (List.mem_cons_self _ _)))
    · intro hall
      exact (hpa2 fun p hp => hall p (List.mem_cons_of_mem _ hp)).trans
        (hpa1 (hall (k, v) (List.mem_cons_self _ _)))
    · intro hall
      exact (hpr2 fun p hp => hall p (List.mem_cons_of_mem _ hp)).trans
        (hpr1 (hall (k, v) (List.mem_cons_self _ _)))
    · intro hall
      exact (hr2 fun p hp => hall p (List.mem_cons_of_mem _ hp)).trans
        (hr1 (hall (k, v) (List.mem_cons_self _ _)))

/-- C9 counterexample: a credentials file whose JSON object is empty —
so both `username` and `password` are absent — decodes successfully into
the zero record instead of failing with a decode error. -/
theorem getProxmoxCredentials_missing_required_ok :
    (getProxmoxCredentials "/etc/fleeting/credentials.json" (.ok (.value (.obj [])))).1 =
      .ok Credentials.zero := rfl

/-- C9 (amended): the decoder enforces no required fields — for any
credentials file whose known fields are strings (or null), decoding
succeeds, and every absent field of the record (required or optional)
is simply the empty string. -/
theorem getProxmoxCredentials_no_required_fields
    (path : String) (kvs : List (String × Json))
    (h : ∀ p ∈ kvs, isStrOrNull p.2 = true) :
    ∃ c, (getProxmoxCredentials path (.ok (.value (.obj kvs)))).1 = .ok c ∧
      ((∀ p ∈ kvs, p.1 ≠ "username") → c.Username = "") ∧
      ((∀ p ∈ kvs, p.1 ≠ "password") → c.Password = "") ∧
      ((∀ p ∈ kvs, p.1 ≠ "token") → c.TokenID = "") ∧
      ((∀ p ∈ kvs, p.1 ≠ "otpsecret") → c.OtpSecret = "") ∧
      ((∀ p ∈ kvs, p.1 ≠ "path") → c.Path = "") ∧
      ((∀ p ∈ kvs, p.1 ≠ "privs") → c.Privs = "") ∧
      ((∀ p ∈ kvs, p.1 ≠ "realm") → c.Realm = "") := by
  obtain ⟨c1, hc1, hu, hp, ht, ho, hpa, hpr, hr⟩ := decodeFields_ok kvs Credentials.zero h
  exact ⟨c1, by simp [getProxmoxCredentials, decodeFile, decodeCredentials, hc1],
    fun ha => (hu ha).trans rfl, fun ha => (hp ha).trans rfl, fun ha => (ht ha).trans rfl,
    fun ha => (ho ha).trans rfl, fun ha => (hpa ha).trans rfl, fun ha => (hpr ha).trans rfl,
    fun ha => (hr ha).trans rfl⟩

/-- Witness for the amended C9: a file carrying only the optional
`realm` field decodes successfully, with all absent fields empty. -/
theorem getProxmoxCredentials_no_required_fields_witness :
    ∃ c, (getProxmoxCredentials "/etc/creds"
        (.ok (.value (.obj [("realm", .str "pam")])))).1 = .ok c ∧
      ((∀ p ∈ [(("realm" : String), Json.str "pam")], p.1 ≠ "username") → c.Username = "") ∧
      ((∀ p ∈ [(("realm" : String), Json.str "pam")], p.1 ≠ "password") → c.Password = "") ∧
      ((∀ p ∈ [(("realm" : String), Json.str "pam")], p.1 ≠ "token") → c.TokenID = "") ∧
      ((∀ p ∈ [(("realm" : String), Json.str "pam")], p.1 ≠ "otpsecret") → c.OtpSecret = "") ∧
      ((∀ p ∈ [(("realm" : String), Json.str "pam")], p.1 ≠ "path") → c.Path = "") ∧
      ((∀ p ∈ [(("realm" : String), Json.str "pam")], p.1 ≠ "privs") → c.Privs = "") ∧
      ((∀ p ∈ [(("realm" : String), Json.str "pam")], p.1 ≠ "realm") → c.Realm = "") :=
  getProxmoxCredentials_no_required_fields "/etc/creds" [("realm", .str "pam")]
    (by intro p hp; simp at hp; simp [hp, isStrOrNull])

/-- C5: in a refresh cycle whose credentials re-read fails, the cycle is
abandoned: the error is logged, no `Ticket` call is issued in that
cycle, and the loop neither propagates the failure nor stops — the
remaining trace is processed exactly as if appended after the failed
cycle's log. -/
theorem refreshCycle_cred_failure_skips (e : GoError) (tr : Except GoError Unit)
    (rest : List SelectOutcome) :
    refreshCycle ⟨.error e, tr⟩ =
      ([.errorLog "failed to refresh proxmox session, could not read credentials" e], []) ∧
    runSessionTicketRefresher (.interval ⟨.error e, tr⟩ :: rest) =
      (.errorLog "failed to refresh proxmox session, could not read credentials" e ::
         (runSessionTicketRefresher rest).1,
       (runSessionTicketRefresher rest).2.1,
       (runSessionTicketRefresher rest).2.2) := by
  constructor
  · rfl
  · simp [runSessionTicketRefresher, refreshCycle]

theorem runSessionTicketRefresher_append_shutdown
    (pre post : List SelectOutcome) (h : ∀ x ∈ pre, x ≠ SelectOutcome.shutdown) :
    runSessionTicketRefresher (pre ++ SelectOutcome.shutdown :: post) =
      ((runSessionTicketRefresher pre).1, (runSessionTicketRefresher pre).2.1, true) := by
  induction pre with
  | nil => rfl
  | cons x rest ih =>
    have hx := h x (List.mem_cons_self _ _)
    have hrest := fun y hy => h y (List.mem_cons_of_mem _ hy)
    cases x with
    | shutdown => exact absurd rfl hx
    | interval env =>
      simp [runSessionTicketRefresher, ih hrest]

theorem runSessionTicketRefresher_returns_only_on_shutdown
    (trace : List SelectOutcome)
    (h : (runSessionTicketRefresher trace).2.2 = true) :
    SelectOutcome.shutdown ∈ trace := by
  induction trace with
  | nil => simp [runSessionTicketRefresher] at h
  | cons x rest ih =>
    cases x with
    | shutdown => exact List.mem_cons_self _ _
    | interval env =>
      simp only [runSessionTicketRefresher] at h
      exact List.mem_cons_of_mem _ (ih h)

/-- C6: once the shutdown trigger fires, the refresher performs no
further refresh cycles (the events after the shutdown contribute no logs
and no API calls), exits the loop, and `Done` restores the wait-group
counter so the owner's wait returns; and the loop never returns on any
trace that does not contain the shutdown signal. -/
theorem refresher_shutdown_exits (pre post : List SelectOutcome)
    (hpre : ∀ x ∈ pre, x ≠ SelectOutcome.shutdown) (wgCounter : Int) :
    (runSessionTicketRefresher (pre ++ SelectOutcome.shutdown :: post)).2.2 = true ∧
    (runSessionTicketRefresher (pre ++ SelectOutcome.shutdown :: post)).1 =
      (runSessionTicketRefresher pre).1 ∧
    (runSessionTicketRefresher (pre ++ SelectOutcome.shutdown :: post)).2.1 =
      (runSessionTicketRefresher pre).2.1 ∧
    (startSessionTicketRefresher wgCounter (pre ++ SelectOutcome.shutdown :: post)).1 =
      wgCounter ∧
    (∀ trace : List SelectOutcome,
      (runSessionTicketRefresher trace).2.2 = true → SelectOutcome.shutdown ∈ trace) := by
  have hrun := runSessionTicketRefresher_append_shutdown pre post hpre
  refine ⟨by rw [hrun], by rw [hrun], by rw [hrun], ?_,
    runSessionTicketRefresher_returns_only_on_shutdown⟩
  simp [startSessionTicketRefresher, hrun]

/-- Witness for C6: an immediate shutdown exits the loop with no cycles
and restores the wait-group counter. -/
theorem refresher_shutdown_exits_witness :
    (runSessionTicketRefresher ([] ++ SelectOutcome.shutdown :: [])).2.2 = true ∧
    (runSessionTicketRefresher ([] ++ SelectOutcome.shutdown :: [])).1 =
      (runSessionTicketRefresher []).1 ∧
    (runSessionTicketRefresher ([] ++ SelectOutcome.shutdown :: [])).2.1 =
      (runSessionTicketRefresher []).2.1 ∧
    (startSessionTicketRefresher 0 ([] ++ SelectOutcome.shutdown :: [])).1 = 0 ∧
    (∀ trace : List SelectOutcome,
      (runSessionTicketRefresher trace).2.2 = true → SelectOutcome.shutdown ∈ trace) :=
  refresher_shutdown_exits [] [] (by simp) 0

/-- C7 counterevidence: in a cycle whose `Ticket` renewal call fails,
the source logs the failure *and still* logs the "refreshed proxmox
session" confirmation, because the error branch has no early return —
the confirmation is not conditional on success. -/
theorem refreshCycle_logs_info_despite_failure :
    refreshCycle ⟨.ok sampleCreds, .error (.base "connection refused")⟩ =
      ([.errorLog "failed to refresh proxmox session" (.base "connection refused"),
        .infoLog "refreshed proxmox session"],
       [.ticket { Username := "root" }]) := rfl

/-- C8 counterevidence: in a cycle that reaches the renew call, the
`proxmox.Credentials` argument of the `Ticket` call carries only the
username — the `Password` field, which per the source's own comment
should hold the old session ticket, is empty, so the call presents no
ticket at all. -/
theorem refreshCycle_ticket_carries_no_ticket :
    (refreshCycle ⟨.ok sampleCreds, .ok ()⟩).2 =
      [.ticket { Username := "root", Password := "", Otp := ""
                 Path := "", Privs := "", Realm := "" }] := rfl

end ProxmoxPlugin
